import Mathlib

/-!
Verification of the ImageMaker CLI module (ImageMaker.cxx).

The pipeline is: `main` dispatches on `Dimension` (1, 2, default 3) to
`DoIt<D>`, which dispatches on the scalar-type tag to a concrete
`DoIt<OutputImageType, OutputScalarType>` instantiation (vector image when
`NumberOfComponents > 1`, scalar image otherwise); that builder allocates a
zero-based region of the requested size, attaches spacing, origin and
direction verbatim, writes the first pixel from the cyclic fill values and
replicates it over the whole buffer with `FillBuffer`, then hands the image
to the file writer.

The embedding below carries every scalar value as a rational number; the
cast from a raw fill value to the target scalar kind is truncation toward
zero followed by wrap-around at the kind's width for the integer kinds, and
the identity for the floating kinds.
-/

namespace ImageMaker

/-- The component-type enumeration of `itk::ImageIOBase`, restricted to the
values the dispatch switch in `DoIt<D>` handles. -/
inductive ComponentType where
  | UNKNOWNCOMPONENTTYPE
  | UCHAR
  | CHAR
  | USHORT
  | SHORT
  | UINT
  | INT
  | ULONG
  | LONG
  | FLOAT
  | DOUBLE
deriving DecidableEq, Repr

/-- The ten scalar-type tags the Parameter Set recognizes. -/
def scalarTypeTags : List String :=
  ["uchar", "char", "ushort", "short", "uint", "int", "ulong", "long",
   "float", "double"]

/-- Modelled from the spec: `itk::ImageIOBase::GetComponentTypeFromString`
is external library code; per the spec the recognized tags are exactly
uchar, char, ushort, short, uint, int, ulong, long, float and double, and
any other string maps to `UNKNOWNCOMPONENTTYPE`. -/
def getComponentTypeFromString (s : String) : ComponentType :=
  if s = "uchar" then ComponentType.UCHAR
  else if s = "char" then ComponentType.CHAR
  else if s = "ushort" then ComponentType.USHORT
  else if s = "short" then ComponentType.SHORT
  else if s = "uint" then ComponentType.UINT
  else if s = "int" then ComponentType.INT
  else if s = "ulong" then ComponentType.ULONG
  else if s = "long" then ComponentType.LONG
  else if s = "float" then ComponentType.FLOAT
  else if s = "double" then ComponentType.DOUBLE
  else ComponentType.UNKNOWNCOMPONENTTYPE

/-- Bit width and signedness of each integer scalar kind (LP64 sizes for
the C types used by the dispatch switch); `none` for the floating kinds. -/
def componentWidth : ComponentType → Option (Nat × Bool)
  | ComponentType.UCHAR => some (8, false)
  | ComponentType.CHAR => some (8, true)
  | ComponentType.USHORT => some (16, false)
  | ComponentType.SHORT => some (16, true)
  | ComponentType.UINT => some (32, false)
  | ComponentType.INT => some (32, true)
  | ComponentType.ULONG => some (64, false)
  | ComponentType.LONG => some (64, true)
  | _ => none

/-- Truncation of a rational toward zero, as a C floating-to-integer
conversion does. -/
def ratTrunc (q : ℚ) : Int :=
  if q < 0 then ⌈q⌉ else ⌊q⌋

/-- Modelled from the spec: the cast of a raw fill value to the target
scalar kind performed by `pixel[c] = FillValue[...]` (the element type of
`FillValue` lives in the generated `ImageMakerCLP.h`, which is not in the
sources). Per the spec it narrows and truncates with the scalar kind's
native rules, with no range validation: integer kinds truncate toward zero
and wrap at the kind's width; the floating kinds keep the value (rounding
of the floating formats is outside this embedding). -/
def castScalar (ct : ComponentType) (q : ℚ) : ℚ :=
  match componentWidth ct with
  | some (w, signed) =>
    let m : Int := (ratTrunc q) % ((2 : Int) ^ w)
    if signed ∧ (2 : Int) ^ (w - 1) ≤ m then ((m - (2 : Int) ^ w : Int) : ℚ)
    else (m : ℚ)
  | none => q

/-- The Parameter Set produced by `PARSE_ARGS`: the command-line values the
two `DoIt` templates and `main` read. -/
structure Params where
  Dimension : Int
  NumberOfComponents : Int
  ScalarType : String
  Size : List Nat
  Spacing : List ℚ
  Origin : List ℚ
  Direction : List ℚ
  FillValue : List ℚ
  OutputVolume : String
deriving DecidableEq, Repr

/-- The in-memory image the builder produces: region geometry, physical
metadata and the scalar buffer (component-major within each pixel, pixels
in index order, as `GetBufferPointer` exposes it). -/
structure ItkImage where
  imageDimension : Nat
  isVectorImage : Bool
  componentsPerPixel : Nat
  regionSize : List Nat
  regionIndex : List Int
  spacing : List ℚ
  origin : List ℚ
  direction : List (List ℚ)
  buffer : List ℚ
deriving DecidableEq, Repr

/-- The `switch(Dimension)` in `main` (lines 52-64): cases 1 and 2 keep the
requested dimension, and `default` falls through to case 3, so every other
value is silently coerced to 3. -/
def dispatchDimension (dim : Int) : Nat :=
  if dim = 1 then 1 else if dim = 2 then 2 else 3

/-- The index into `FillValue` used by the fill loop (line 200):
`c % FillValue.size()`. -/
def fillIndex (p : Params) (c : Nat) : Nat :=
  c % p.FillValue.length

/-- The component count of the built image (lines 150-154): default 1 from
`OutputImageType::New()`, overridden by `SetNumberOfComponentsPerPixel`
when `NumberOfComponents > 1` — a call that takes effect only on
`itk::VectorImage` (`isVector`); on `itk::Image` the base-class call is a
no-op and the count stays 1. -/
def buildComponents (isVector : Bool) (p : Params) : Nat :=
  if isVector = true ∧ 1 < p.NumberOfComponents then p.NumberOfComponents.toNat else 1

/-- The region size copied from the `Size` parameter axis by axis
(lines 156-160): `size[i] = Size[i]` for `i < D`. -/
def buildSize (D : Nat) (p : Params) : List Nat :=
  (List.range D).map (fun i => p.Size.getD i 0)

/-- Number of spatial locations of the allocated region. -/
def buildNumPixels (D : Nat) (p : Params) : Nat :=
  (buildSize D p).prod

/-- The buffer as `Allocate()` (line 170) leaves it:
`components × numPixels` scalars, uninitialized; zeros stand in for the
garbage and are fully overwritten before the image is observed whenever
the region is nonempty. -/
def buildAllocated (D : Nat) (isVector : Bool) (p : Params) : List ℚ :=
  List.replicate (buildComponents isVector p * buildNumPixels D p) 0

/-- The buffer after the first-pixel write loop (lines 197-201):
`pixel[c] = FillValue[c % FillValue.size()]` for each component index
`c` of the pixel, with the implicit conversion to `OutputScalarType`. -/
def buildBuf1 (D : Nat) (isVector : Bool) (ct : ComponentType) (p : Params) : List ℚ :=
  (List.range (buildComponents isVector p)).foldl
    (fun b c => b.set c (castScalar ct (p.FillValue.getD (fillIndex p c) 0)))
    (buildAllocated D isVector p)

/-- The pixel read back at the zero index (`GetPixel(firstIndex)`,
line 207): the first `components` scalars of the buffer. -/
def buildFirstPixel (D : Nat) (isVector : Bool) (ct : ComponentType) (p : Params) : List ℚ :=
  (buildBuf1 D isVector ct p).take (buildComponents isVector p)

/-- Shallow embedding of `DoIt<OutputImageType, OutputScalarType>`
(lines 143-219), up to the writer call. `D` is
`OutputImageType::ImageDimension`; `isVector` records whether
`OutputImageType` is `itk::VectorImage` or `itk::Image`; `ct` is
`OutputScalarType`. The region start index is zero on every axis
(lines 161-165); spacing, origin and direction are copied from the
parameters (lines 172-194), the direction matrix row-major with
`direction[r][c] = Direction[r*D+c]`; and
`FillBuffer(image->GetPixel(firstIndex))` (line 207) replaces the buffer
with the pixel at the zero index replicated at every spatial location. -/
def doItBuild (D : Nat) (isVector : Bool) (ct : ComponentType) (p : Params) : ItkImage :=
  { imageDimension := D
    isVectorImage := isVector
    componentsPerPixel := buildComponents isVector p
    regionSize := buildSize D p
    regionIndex := List.replicate D 0
    spacing := (List.range D).map (fun i => p.Spacing.getD i 0)
    origin := (List.range D).map (fun i => p.Origin.getD i 0)
    direction := (List.range D).map
      (fun r => (List.range D).map (fun c => p.Direction.getD (r * D + c) 0))
    buffer := List.flatten (List.replicate (buildNumPixels D p) (buildFirstPixel D isVector ct p)) }

/-- Outcome of `DoIt<D>`: either the built image reaches the writer with
the requested output path, or the dispatch fails on an unknown component
type. -/
inductive RunOutcome where
  | success (image : ItkImage) (outputPath : String)
  | failure (diagnostic : String)
deriving DecidableEq, Repr

/-- Shallow embedding of `DoIt<D>` (lines 86-140): the switch over
`GetComponentTypeFromString(scalarType)` instantiates the builder for the
matching scalar kind, as a vector image exactly when
`numberOfComponents > 1`; the `UNKNOWNCOMPONENTTYPE`/`default` case prints
"unknown component type" on standard output and returns `EXIT_FAILURE`
without building anything. -/
def doItD (D : Nat) (p : Params) : RunOutcome :=
  let isVector : Bool := decide (1 < p.NumberOfComponents)
  let ct := getComponentTypeFromString p.ScalarType
  if ct = ComponentType.UNKNOWNCOMPONENTTYPE then
    RunOutcome.failure "unknown component type"
  else
    RunOutcome.success (doItBuild D isVector ct p) p.OutputVolume

/-- Outcome of the external writer (`writer->Update()`): success, or an
`itk::ExceptionObject` carrying a message. The codec itself is outside
this embedding, so the pipeline is parameterized over it. -/
inductive WriteResult where
  | ok
  | exn (msg : String)
deriving DecidableEq, Repr

/-- Observable result of a process run: exit code plus the lines printed
on standard output and on the error stream. -/
structure ProcResult where
  exitCode : Nat
  stdoutLines : List String
  stderrLines : List String
deriving DecidableEq, Repr

def EXIT_SUCCESS : Nat := 0

def EXIT_FAILURE : Nat := 1

/-- Shallow embedding of `main` (lines 46-74) composed with the writer
call at the end of the builder (lines 209-216). `w` is the external
writer: on `ok` the builder returns `EXIT_SUCCESS`, and a thrown
`itk::ExceptionObject` propagates to the catch in `main`, which prints
"exception caught !" and the exception on the error stream and returns
`EXIT_FAILURE`. A failed dispatch has already printed its diagnostic on
standard output inside `DoIt<D>`. -/
def mainProc (w : ItkImage → String → WriteResult) (p : Params) : ProcResult :=
  match doItD (dispatchDimension p.Dimension) p with
  | RunOutcome.failure msg =>
    { exitCode := EXIT_FAILURE, stdoutLines := [msg], stderrLines := [] }
  | RunOutcome.success img path =>
    match w img path with
    | WriteResult.ok =>
      { exitCode := EXIT_SUCCESS, stdoutLines := [], stderrLines := [] }
    | WriteResult.exn m =>
      { exitCode := EXIT_FAILURE, stdoutLines := [],
        stderrLines := ["exception caught !", m] }

/-- Concrete parameter set used by the witnesses: the spec's first test
scenario with fill values 10, 20 on a 3-component uchar image. -/
def exampleParams : Params :=
  { Dimension := 3, NumberOfComponents := 3, ScalarType := "uchar",
    Size := [2, 2, 1], Spacing := [1, 1, 1], Origin := [0, 0, 0],
    Direction := [1, 0, 0, 0, 1, 0, 0, 0, 1], FillValue := [10, 20],
    OutputVolume := "out.mha" }

/-- Concrete parameter set with an unrecognized scalar-type tag, from the
spec's failure scenario. -/
def exampleBogusParams : Params :=
  { exampleParams with ScalarType := "bogus" }

/-- Concrete scalar-image parameter set (one component). -/
def exampleScalarParams : Params :=
  { exampleParams with NumberOfComponents := 1, FillValue := [255] }

section ListLemmas

variable {α : Type}

/-- Writing elements in place preserves the buffer length. -/
theorem length_foldl_set (f : Nat → α) (l : List α) (n : Nat) :
    ((List.range n).foldl (fun b c => b.set c (f c)) l).length = l.length := by
  induction n generalizing l with
  | zero => rfl
  | succ n ih =>
    rw [List.range_succ, List.foldl_append, List.foldl_cons, List.foldl_nil,
      List.length_set, ih]

/-- The write loop `for c < n, b[c] := f c` leaves `f i` at every index
`i < n` that is inside the buffer. -/
theorem getD_foldl_set (f : Nat → α) (d : α) (l : List α) (n i : Nat)
    (h1 : i < n) (h2 : i < l.length) :
    ((List.range n).foldl (fun b c => b.set c (f c)) l).getD i d = f i := by
  induction n generalizing l with
  | zero => omega
  | succ n ih =>
    rw [List.range_succ, List.foldl_append, List.foldl_cons, List.foldl_nil]
    rcases Nat.lt_or_ge i n with hin | hin
    · rw [List.getD_eq_getD_get?, List.get?_set_ne _ _ (by omega),
        ← List.getD_eq_getD_get?]
      exact ih l hin h2
    · have heq : i = n := by omega
      subst heq
      rw [List.getD_eq_getD_get?, List.get?_set_eq_of_lt]
      · rfl
      · rw [length_foldl_set]; exact h2

/-- Length of a buffer made of `m` copies of one pixel. -/
theorem length_flatten_replicate (m : Nat) (L : List α) :
    (List.flatten (List.replicate m L)).length = m * L.length := by
  induction m with
  | zero => simp
  | succ m ih =>
    rw [List.replicate_succ, List.flatten_cons, List.length_append, ih]
    ring

/-- Reading component `r` of pixel `k` out of `m` replicated copies of the
pixel `L` gives component `r` of `L`. -/
theorem getD_flatten_replicate (d : α) (L : List α) (m k r : Nat)
    (hr : r < L.length) (hk : k < m) :
    (List.flatten (List.replicate m L)).getD (k * L.length + r) d = L.getD r d := by
  induction m generalizing k with
  | zero => omega
  | succ m ih =>
    rw [List.replicate_succ, List.flatten_cons]
    cases k with
    | zero =>
      rw [Nat.zero_mul, Nat.zero_add]
      exact List.getD_append _ _ _ _ hr
    | succ k =>
      have hidx : (k + 1) * L.length + r = L.length + (k * L.length + r) := by ring
      rw [hidx, List.getD_append_right _ _ _ _ (by omega)]
      have hsub : L.length + (k * L.length + r) - L.length = k * L.length + r := by omega
      rw [hsub]
      exact ih k (by omega)

/-- A list is recovered by tabulating `getD` over its range of indices. -/
theorem map_getD_range (l : List α) (d : α) :
    (List.range l.length).map (fun i => l.getD i d) = l := by
  apply List.ext_getElem
  · simp
  · intro i h1 h2
    simp only [List.getElem_map, List.getElem_range]
    exact List.getD_eq_getElem _ _ h2

/-- Tabulating `f` over `range n` and reading index `i < n` gives `f i`. -/
theorem getD_map_range (f : Nat → α) (d : α) (n i : Nat) (h : i < n) :
    ((List.range n).map f).getD i d = f i := by
  rw [List.getD_eq_getElem _ _ (by simpa using h)]
  simp

/-- Flattening `n` copies of a one-element pixel is `n` copies of the
element. -/
theorem flatten_replicate_singleton (n : Nat) (a : α) :
    List.flatten (List.replicate n [a]) = List.replicate n a := by
  induction n with
  | zero => rfl
  | succ n ih => rw [List.replicate_succ, List.flatten_cons, ih]; rfl

/-- Reading inside the taken prefix reads the original list. -/
theorem getD_take (l : List α) (d : α) (n i : Nat) (h : i < n) :
    (l.take n).getD i d = l.getD i d := by
  rw [List.getD_eq_getD_get?, List.getD_eq_getD_get?, List.get?_take h]

end ListLemmas

/-- When the scalar-type tag resolves to a known component type, `DoIt<D>`
hands the built image and the output path to the writer. -/
theorem doItD_eq_success (D : Nat) (p : Params)
    (hct : getComponentTypeFromString p.ScalarType ≠ ComponentType.UNKNOWNCOMPONENTTYPE) :
    doItD D p = RunOutcome.success
      (doItBuild D (decide (1 < p.NumberOfComponents))
        (getComponentTypeFromString p.ScalarType) p)
      p.OutputVolume := by
  unfold doItD
  simp [hct]

/-- Length of the buffer after the write loop. -/
theorem buildBuf1_length (D : Nat) (iv : Bool) (ct : ComponentType) (p : Params) :
    (buildBuf1 D iv ct p).length = buildComponents iv p * buildNumPixels D p := by
  unfold buildBuf1 buildAllocated
  rw [length_foldl_set, List.length_replicate]

/-- Length of the pixel read back at the zero index. -/
theorem buildFirstPixel_length (D : Nat) (iv : Bool) (ct : ComponentType) (p : Params) :
    (buildFirstPixel D iv ct p).length =
      min (buildComponents iv p) (buildComponents iv p * buildNumPixels D p) := by
  unfold buildFirstPixel
  rw [List.length_take, buildBuf1_length]

/-- On a nonempty region the first pixel holds exactly the cyclic fill
values, cast to the target scalar kind. -/
theorem buildFirstPixel_getD (D : Nat) (iv : Bool) (ct : ComponentType) (p : Params)
    (c : Nat) (hc : c < buildComponents iv p) (hnp : 1 ≤ buildNumPixels D p) :
    (buildFirstPixel D iv ct p).getD c 0
      = castScalar ct (p.FillValue.getD (fillIndex p c) 0) := by
  unfold buildFirstPixel
  rw [getD_take _ _ _ _ hc]
  unfold buildBuf1
  refine getD_foldl_set _ _ _ _ _ hc ?_
  unfold buildAllocated
  rw [List.length_replicate]
  calc c < buildComponents iv p := hc
    _ = buildComponents iv p * 1 := (Nat.mul_one _).symm
    _ ≤ buildComponents iv p * buildNumPixels D p := Nat.mul_le_mul_left _ hnp

/-- The built image's buffer holds exactly
`components × product(size)` scalars. -/
theorem doItBuild_buffer_length (D : Nat) (iv : Bool) (ct : ComponentType) (p : Params) :
    (doItBuild D iv ct p).buffer.length
      = buildComponents iv p * buildNumPixels D p := by
  show (List.flatten (List.replicate (buildNumPixels D p) (buildFirstPixel D iv ct p))).length = _
  rw [length_flatten_replicate, buildFirstPixel_length]
  rcases Nat.eq_zero_or_pos (buildNumPixels D p) with h | h
  · rw [h]; simp
  · rw [Nat.min_eq_left]
    · ring
    · calc buildComponents iv p = buildComponents iv p * 1 := (Nat.mul_one _).symm
        _ ≤ buildComponents iv p * buildNumPixels D p := Nat.mul_le_mul_left _ h

/-- Every pixel of the built image carries the cyclic fill pattern: the
scalar at pixel `k`, component `c` is `FillValue[c % FillValue.size()]`
cast to the target scalar kind, for every pixel alike. -/
theorem doItBuild_buffer_getD (D : Nat) (iv : Bool) (ct : ComponentType) (p : Params)
    (k c : Nat) (hk : k < buildNumPixels D p) (hc : c < buildComponents iv p) :
    (doItBuild D iv ct p).buffer.getD (k * buildComponents iv p + c) 0
      = castScalar ct (p.FillValue.getD (fillIndex p c) 0) := by
  have hnp : 1 ≤ buildNumPixels D p := by omega
  have hfp : (buildFirstPixel D iv ct p).length = buildComponents iv p := by
    rw [buildFirstPixel_length]
    refine Nat.min_eq_left ?_
    calc buildComponents iv p = buildComponents iv p * 1 := (Nat.mul_one _).symm
      _ ≤ buildComponents iv p * buildNumPixels D p := Nat.mul_le_mul_left _ hnp
  show (List.flatten (List.replicate (buildNumPixels D p) (buildFirstPixel D iv ct p))).getD _ 0 = _
  rw [← hfp, getD_flatten_replicate _ _ _ _ _ (hfp ▸ hc) hk]
  exact buildFirstPixel_getD D iv ct p c hc hnp

/-- Under `NumberOfComponents ≥ 1` the component count of the built image
is exactly the requested one, whichever representation the resolver chose
for it. -/
theorem buildComponents_of_pos (p : Params) (hnc : 1 ≤ p.NumberOfComponents) :
    buildComponents (decide (1 < p.NumberOfComponents)) p
      = p.NumberOfComponents.toNat := by
  unfold buildComponents
  rcases Int.lt_or_le 1 p.NumberOfComponents with h | h
  · simp [h]
  · have h1 : p.NumberOfComponents = 1 := le_antisymm h hnc
    simp [h1]

/-- C1: for every valid configuration (dimension in {1,2,3}, recognized
scalarType, numberOfComponents ≥ 1, at least one fill value) every pixel
of the built image has, at each component index `c`, the value
`fillValues[c mod len(fillValues)]` cast to the target scalar kind, and
this component tuple is identical at every spatial location (the right
side of the buffer equation does not mention the pixel index `k`). -/
theorem uniform_cyclic_fill (p : Params)
    (hdim : p.Dimension = 1 ∨ p.Dimension = 2 ∨ p.Dimension = 3)
    (hct : getComponentTypeFromString p.ScalarType ≠ ComponentType.UNKNOWNCOMPONENTTYPE)
    (hnc : 1 ≤ p.NumberOfComponents)
    (hfv : 1 ≤ p.FillValue.length) :
    ∃ img : ItkImage,
      doItD (dispatchDimension p.Dimension) p
        = RunOutcome.success img p.OutputVolume ∧
      img.componentsPerPixel = p.NumberOfComponents.toNat ∧
      ∀ k c : Nat, k < img.regionSize.prod → c < img.componentsPerPixel →
        img.buffer.getD (k * img.componentsPerPixel + c) 0
          = castScalar (getComponentTypeFromString p.ScalarType)
              (p.FillValue.getD (c % p.FillValue.length) 0) := by
  refine ⟨_, doItD_eq_success _ p hct, ?_, ?_⟩
  · exact buildComponents_of_pos p hnc
  · intro k c hk hc
    exact doItBuild_buffer_getD _ _ _ p k c hk hc

/-- Witness for C1 at the spec's cyclic-fill scenario. -/
theorem uniform_cyclic_fill_witness :
    ∃ img : ItkImage,
      doItD (dispatchDimension exampleParams.Dimension) exampleParams
        = RunOutcome.success img exampleParams.OutputVolume ∧
      img.componentsPerPixel = exampleParams.NumberOfComponents.toNat ∧
      ∀ k c : Nat, k < img.regionSize.prod → c < img.componentsPerPixel →
        img.buffer.getD (k * img.componentsPerPixel + c) 0
          = castScalar (getComponentTypeFromString exampleParams.ScalarType)
              (exampleParams.FillValue.getD (c % exampleParams.FillValue.length) 0) :=
  uniform_cyclic_fill exampleParams (by decide) (by decide) (by decide) (by decide)

/-- C2: for every valid configuration the allocated region has per-axis
extent equal to the `size` parameter, zero start index on every axis, and
a buffer of exactly `numberOfComponents × product(size)` scalars. -/
theorem region_and_buffer_length (p : Params)
    (hct : getComponentTypeFromString p.ScalarType ≠ ComponentType.UNKNOWNCOMPONENTTYPE)
    (hnc : 1 ≤ p.NumberOfComponents)
    (hsz : p.Size.length = dispatchDimension p.Dimension) :
    ∃ img : ItkImage,
      doItD (dispatchDimension p.Dimension) p
        = RunOutcome.success img p.OutputVolume ∧
      img.regionSize = p.Size ∧
      img.regionIndex = List.replicate (dispatchDimension p.Dimension) (0 : Int) ∧
      img.buffer.length = p.NumberOfComponents.toNat * p.Size.prod := by
  have hsize : buildSize (dispatchDimension p.Dimension) p = p.Size := by
    unfold buildSize
    rw [← hsz]
    exact map_getD_range p.Size 0
  refine ⟨_, doItD_eq_success _ p hct, hsize, rfl, ?_⟩
  rw [doItBuild_buffer_length, buildComponents_of_pos p hnc]
  unfold buildNumPixels
  rw [hsize]

/-- Witness for C2 at the spec's cyclic-fill scenario. -/
theorem region_and_buffer_length_witness :
    ∃ img : ItkImage,
      doItD (dispatchDimension exampleParams.Dimension) exampleParams
        = RunOutcome.success img exampleParams.OutputVolume ∧
      img.regionSize = exampleParams.Size ∧
      img.regionIndex
        = List.replicate (dispatchDimension exampleParams.Dimension) (0 : Int) ∧
      img.buffer.length
        = exampleParams.NumberOfComponents.toNat * exampleParams.Size.prod :=
  region_and_buffer_length exampleParams (by decide) (by decide) (by decide)

/-- C3: for every recognized scalar type and any dimension the resolver
routes `numberOfComponents > 1` to the vector-pixel representation and
`numberOfComponents = 1` to the scalar-pixel representation with one
component per pixel, never to a one-component vector image. -/
theorem vector_scalar_routing (D : Nat) (p : Params)
    (hct : getComponentTypeFromString p.ScalarType ≠ ComponentType.UNKNOWNCOMPONENTTYPE) :
    ∃ img : ItkImage,
      doItD D p = RunOutcome.success img p.OutputVolume ∧
      img.isVectorImage = decide (1 < p.NumberOfComponents) ∧
      (p.NumberOfComponents = 1 →
        img.isVectorImage = false ∧ img.componentsPerPixel = 1) := by
  refine ⟨_, doItD_eq_success D p hct, rfl, ?_⟩
  intro h1
  constructor
  · show decide (1 < p.NumberOfComponents) = false
    simp [h1]
  · show buildComponents (decide (1 < p.NumberOfComponents)) p = 1
    unfold buildComponents
    simp [h1]

/-- Witness for C3 at the one-component scalar scenario. -/
theorem vector_scalar_routing_witness :
    ∃ img : ItkImage,
      doItD 3 exampleScalarParams
        = RunOutcome.success img exampleScalarParams.OutputVolume ∧
      img.isVectorImage = decide (1 < exampleScalarParams.NumberOfComponents) ∧
      (exampleScalarParams.NumberOfComponents = 1 →
        img.isVectorImage = false ∧ img.componentsPerPixel = 1) :=
  vector_scalar_routing 3 exampleScalarParams (by decide)

/-- C4: a dimension outside {1,2,3} is not reported as an error: the
dispatch silently coerces it to 3 and the whole run is identical to a run
with dimension 3; dimensions 1, 2 and 3 select exactly that
dimensionality, which the built image carries. -/
theorem dimension_fallback (w : ItkImage → String → WriteResult) (p : Params) :
    ((p.Dimension ≠ 1 ∧ p.Dimension ≠ 2 ∧ p.Dimension ≠ 3) →
      dispatchDimension p.Dimension = 3 ∧
      mainProc w p = mainProc w { p with Dimension := 3 }) ∧
    (dispatchDimension 1 = 1 ∧ dispatchDimension 2 = 2 ∧ dispatchDimension 3 = 3) ∧
    (∀ img path,
      doItD (dispatchDimension p.Dimension) p = RunOutcome.success img path →
      img.imageDimension = dispatchDimension p.Dimension) := by
  refine ⟨?_, ⟨rfl, rfl, rfl⟩, ?_⟩
  · intro hd
    have h3 : dispatchDimension p.Dimension = 3 := by
      unfold dispatchDimension
      rw [if_neg hd.1, if_neg hd.2.1]
    refine ⟨h3, ?_⟩
    unfold mainProc
    rw [h3]
    rfl
  · intro img path hs
    by_cases hct : getComponentTypeFromString p.ScalarType = ComponentType.UNKNOWNCOMPONENTTYPE
    · rw [doItD, if_pos hct] at hs
      exact absurd hs (by simp)
    · rw [doItD_eq_success _ p hct] at hs
      injection hs with h1 h2
      rw [← h1]
      rfl

/-- Witness for C4 with the out-of-range dimension 7. -/
theorem dimension_fallback_witness :
    dispatchDimension ({ exampleParams with Dimension := 7 } : Params).Dimension = 3 ∧
    mainProc (fun _ _ => WriteResult.ok) { exampleParams with Dimension := 7 }
      = mainProc (fun _ _ => WriteResult.ok)
          { { exampleParams with Dimension := 7 } with Dimension := 3 } :=
  (dimension_fallback (fun _ _ => WriteResult.ok)
    { exampleParams with Dimension := 7 }).1 (by refine ⟨?_, ?_, ?_⟩ <;> decide)

/-- C5: every scalar-type tag outside the ten recognized ones resolves to
the unknown component type; `DoIt<D>` then prints the diagnostic and
returns `EXIT_FAILURE` without building an image, and the process result
does not depend on the writer at all (the Image Builder and the Writer
Adapter are never invoked, so no output file is produced). -/
theorem unknown_scalar_type_fails (p : Params)
    (h : ¬ p.ScalarType ∈ scalarTypeTags) :
    getComponentTypeFromString p.ScalarType = ComponentType.UNKNOWNCOMPONENTTYPE ∧
    (∀ D, doItD D p = RunOutcome.failure "unknown component type") ∧
    (∀ w : ItkImage → String → WriteResult,
      mainProc w p
        = { exitCode := EXIT_FAILURE,
            stdoutLines := ["unknown component type"], stderrLines := [] }) := by
  have hct : getComponentTypeFromString p.ScalarType
      = ComponentType.UNKNOWNCOMPONENTTYPE := by
    unfold getComponentTypeFromString
    split_ifs with h1 h2 h3 h4 h5 h6 h7 h8 h9 h10 <;>
      first
        | rfl
        | (exfalso; apply h; unfold scalarTypeTags; simp [*])
  have hfail : ∀ D, doItD D p = RunOutcome.failure "unknown component type" := by
    intro D
    unfold doItD
    simp [hct]
  refine ⟨hct, hfail, ?_⟩
  intro w
  unfold mainProc
  rw [hfail]

/-- Witness for C5 at the spec's "bogus" scenario. -/
theorem unknown_scalar_type_fails_witness :
    getComponentTypeFromString exampleBogusParams.ScalarType
      = ComponentType.UNKNOWNCOMPONENTTYPE ∧
    (∀ D, doItD D exampleBogusParams
      = RunOutcome.failure "unknown component type") ∧
    (∀ w : ItkImage → String → WriteResult,
      mainProc w exampleBogusParams
        = { exitCode := EXIT_FAILURE,
            stdoutLines := ["unknown component type"], stderrLines := [] }) :=
  unknown_scalar_type_fails exampleBogusParams (by decide)

/-- C6: spacing, origin and direction are attached to the built image
verbatim, with the direction matrix decoded row-major:
`direction[r][c] = Direction[r*dimension + c]`. -/
theorem metadata_verbatim (p : Params)
    (hct : getComponentTypeFromString p.ScalarType ≠ ComponentType.UNKNOWNCOMPONENTTYPE)
    (hsp : p.Spacing.length = dispatchDimension p.Dimension)
    (hor : p.Origin.length = dispatchDimension p.Dimension) :
    ∃ img : ItkImage,
      doItD (dispatchDimension p.Dimension) p
        = RunOutcome.success img p.OutputVolume ∧
      img.spacing = p.Spacing ∧
      img.origin = p.Origin ∧
      ∀ r c : Nat,
        r < dispatchDimension p.Dimension → c < dispatchDimension p.Dimension →
        (img.direction.getD r []).getD c 0
          = p.Direction.getD (r * dispatchDimension p.Dimension + c) 0 := by
  refine ⟨_, doItD_eq_success _ p hct, ?_, ?_, ?_⟩
  · show (List.range (dispatchDimension p.Dimension)).map
        (fun i => p.Spacing.getD i 0) = p.Spacing
    rw [← hsp]
    exact map_getD_range p.Spacing 0
  · show (List.range (dispatchDimension p.Dimension)).map
        (fun i => p.Origin.getD i 0) = p.Origin
    rw [← hor]
    exact map_getD_range p.Origin 0
  · intro r c hr hc
    show (((List.range (dispatchDimension p.Dimension)).map
        (fun r => (List.range (dispatchDimension p.Dimension)).map
          (fun c => p.Direction.getD (r * dispatchDimension p.Dimension + c) 0))).getD
            r []).getD c 0 = _
    rw [getD_map_range _ _ _ _ hr, getD_map_range _ _ _ _ hc]

/-- Witness for C6 at the spec's cyclic-fill scenario. -/
theorem metadata_verbatim_witness :
    ∃ img : ItkImage,
      doItD (dispatchDimension exampleParams.Dimension) exampleParams
        = RunOutcome.success img exampleParams.OutputVolume ∧
      img.spacing = exampleParams.Spacing ∧
      img.origin = exampleParams.Origin ∧
      ∀ r c : Nat,
        r < dispatchDimension exampleParams.Dimension →
        c < dispatchDimension exampleParams.Dimension →
        (img.direction.getD r []).getD c 0
          = exampleParams.Direction.getD
              (r * dispatchDimension exampleParams.Dimension + c) 0 :=
  metadata_verbatim exampleParams (by decide) (by decide) (by decide)

/-- C7 fails as stated: with the unrecognized tag "bogus" the resolver
error does yield `EXIT_FAILURE`, but its diagnostic goes to standard
output and nothing at all is written to the error stream (line 136 uses
`std::cout`, not `std::cerr`). -/
theorem resolver_diagnostic_not_on_error_stream :
    (mainProc (fun _ _ => WriteResult.ok) exampleBogusParams).exitCode
      = EXIT_FAILURE ∧
    (mainProc (fun _ _ => WriteResult.ok) exampleBogusParams).stderrLines = [] ∧
    (mainProc (fun _ _ => WriteResult.ok) exampleBogusParams).stdoutLines
      = ["unknown component type"] := by
  refine ⟨?_, ?_, ?_⟩ <;> decide

/-- C7 (amended): success yields exit code 0; a resolver error yields a
failure exit code with its diagnostic written to standard output and
nothing on the error stream; a writer exception is caught at the
top-level boundary and yields a failure exit code with the diagnostic on
the error stream. Every case is a normal return of `mainProc`, never an
unhandled abort. -/
theorem exit_codes_and_diagnostics (w : ItkImage → String → WriteResult) (p : Params) :
    (∀ img path,
      doItD (dispatchDimension p.Dimension) p = RunOutcome.success img path →
      (w img path = WriteResult.ok →
        mainProc w p
          = { exitCode := EXIT_SUCCESS, stdoutLines := [], stderrLines := [] }) ∧
      (∀ m, w img path = WriteResult.exn m →
        (mainProc w p).exitCode = EXIT_FAILURE ∧
        (mainProc w p).stderrLines = ["exception caught !", m])) ∧
    (∀ m,
      doItD (dispatchDimension p.Dimension) p = RunOutcome.failure m →
      (mainProc w p).exitCode = EXIT_FAILURE ∧
      (mainProc w p).stdoutLines = [m] ∧
      (mainProc w p).stderrLines = []) := by
  constructor
  · intro img path hs
    constructor
    · intro hw
      unfold mainProc
      simp only [hs, hw]
    · intro m hw
      unfold mainProc
      simp only [hs, hw]
      exact ⟨trivial, trivial⟩
  · intro m hf
    unfold mainProc
    simp only [hf]
    exact ⟨trivial, trivial, trivial⟩

/-- Witness for the amended C7: a successful run exits with code 0. -/
theorem exit_codes_and_diagnostics_witness :
    mainProc (fun _ _ => WriteResult.ok) exampleParams
      = { exitCode := EXIT_SUCCESS, stdoutLines := [], stderrLines := [] } :=
  ((exit_codes_and_diagnostics (fun _ _ => WriteResult.ok) exampleParams).1
    _ _ (doItD_eq_success _ exampleParams (by decide))).1 rfl

/-- C8: the pipeline is deterministic — two runs with identical parameter
sets take the same exit path, build identical in-memory images and, for
any function modelling the external codec, produce byte-identical encoded
output for the same output path. -/
theorem deterministic_pipeline (encode : ItkImage → String → List Nat)
    (w : ItkImage → String → WriteResult) (p1 p2 : Params) (h : p1 = p2) :
    mainProc w p1 = mainProc w p2 ∧
    ∀ img1 path1 img2 path2,
      doItD (dispatchDimension p1.Dimension) p1 = RunOutcome.success img1 path1 →
      doItD (dispatchDimension p2.Dimension) p2 = RunOutcome.success img2 path2 →
      img1 = img2 ∧ encode img1 path1 = encode img2 path2 := by
  subst h
  refine ⟨rfl, ?_⟩
  intro img1 path1 img2 path2 h1 h2
  rw [h1] at h2
  injection h2 with hi hp
  exact ⟨hi, by rw [hi, hp]⟩

/-- Witness for C8 at the spec's cyclic-fill scenario, with a concrete
codec function. -/
theorem deterministic_pipeline_witness :
    mainProc (fun _ _ => WriteResult.ok) exampleParams
      = mainProc (fun _ _ => WriteResult.ok) exampleParams ∧
    ∀ img1 path1 img2 path2,
      doItD (dispatchDimension exampleParams.Dimension) exampleParams
        = RunOutcome.success img1 path1 →
      doItD (dispatchDimension exampleParams.Dimension) exampleParams
        = RunOutcome.success img2 path2 →
      img1 = img2 ∧
      (fun img _ => [img.buffer.length]) img1 path1
        = (fun img _ => [img.buffer.length]) img2 path2 :=
  deterministic_pipeline (fun img _ => [img.buffer.length])
    (fun _ _ => WriteResult.ok) exampleParams exampleParams rfl

/-- C9: with at least one fill value, every access
`FillValue[c % FillValue.size()]` performed by the fill loop is in
bounds: the index is always smaller than `FillValue.size()`. -/
theorem fill_access_in_bounds (p : Params) (c : Nat)
    (h : 1 ≤ p.FillValue.length) :
    fillIndex p c < p.FillValue.length :=
  Nat.mod_lt _ h

/-- Witness for C9 at component index 5. -/
theorem fill_access_in_bounds_witness :
    fillIndex exampleParams 5 < exampleParams.FillValue.length :=
  fill_access_in_bounds exampleParams 5 (by decide)

/-- On the scalar-pixel representation the component count is 1. -/
theorem buildComponents_scalar (p : Params) : buildComponents false p = 1 := by
  unfold buildComponents
  simp

/-- On the scalar-pixel representation the buffer is the single fill value
`FillValue[0]` (cast to the target scalar kind) at every spatial
location. -/
theorem doItBuild_buffer_scalar (D : Nat) (ct : ComponentType) (p : Params) :
    (doItBuild D false ct p).buffer
      = List.replicate (buildNumPixels D p)
          (castScalar ct (p.FillValue.getD 0 0)) := by
  show List.flatten (List.replicate (buildNumPixels D p) (buildFirstPixel D false ct p)) = _
  unfold buildFirstPixel buildBuf1 buildAllocated
  rw [buildComponents_scalar, show List.range 1 = [0] from rfl,
    List.foldl_cons, List.foldl_nil, Nat.one_mul]
  have hfi : fillIndex p 0 = 0 := Nat.zero_mod _
  rw [hfi]
  generalize buildNumPixels D p = n
  cases n with
  | zero => rfl
  | succ m =>
    have hset : (List.replicate (m + 1) (0 : ℚ)).set 0
        (castScalar ct (p.FillValue.getD 0 0))
        = castScalar ct (p.FillValue.getD 0 0) :: List.replicate m 0 := by
      rw [List.replicate_succ, List.set_cons_zero]
    rw [hset, List.take_succ_cons, List.take_zero, flatten_replicate_singleton]

/-- C10: every `numberOfComponents ≤ 1` (0 and negative values included)
behaves exactly as `numberOfComponents = 1`: the whole process result is
the same, the scalar-pixel representation is selected, the component
count per pixel stays 1, and every pixel is filled with `FillValue[0]`
alone. -/
theorem single_component_behavior (w : ItkImage → String → WriteResult) (p : Params)
    (hnc : p.NumberOfComponents ≤ 1)
    (hfv : 1 ≤ p.FillValue.length) :
    mainProc w p = mainProc w { p with NumberOfComponents := 1 } ∧
    ∀ D img path, doItD D p = RunOutcome.success img path →
      img.isVectorImage = false ∧
      img.componentsPerPixel = 1 ∧
      img.buffer = List.replicate img.regionSize.prod
        (castScalar (getComponentTypeFromString p.ScalarType)
          (p.FillValue.getD 0 0)) := by
  have hv : decide (1 < p.NumberOfComponents) = false := by
    simp only [decide_eq_false_iff_not]
    omega
  have hdoItD : ∀ D, doItD D p = doItD D { p with NumberOfComponents := 1 } := by
    intro D
    by_cases hct : getComponentTypeFromString p.ScalarType
        = ComponentType.UNKNOWNCOMPONENTTYPE
    · have hct' : getComponentTypeFromString
          ({ p with NumberOfComponents := 1 } : Params).ScalarType
          = ComponentType.UNKNOWNCOMPONENTTYPE := hct
      rw [doItD, if_pos hct, doItD, if_pos hct']
    · have hct' : ¬ getComponentTypeFromString
          ({ p with NumberOfComponents := 1 } : Params).ScalarType
          = ComponentType.UNKNOWNCOMPONENTTYPE := hct
      rw [doItD_eq_success D p hct,
        doItD_eq_success D { p with NumberOfComponents := 1 } hct', hv]
      rfl
  constructor
  · show mainProc w p = mainProc w _
    unfold mainProc
    rw [hdoItD]
  · intro D img path hs
    by_cases hct : getComponentTypeFromString p.ScalarType
        = ComponentType.UNKNOWNCOMPONENTTYPE
    · rw [doItD, if_pos hct] at hs
      exact absurd hs (by simp)
    · rw [doItD_eq_success D p hct, hv] at hs
      injection hs with h1 h2
      subst h1
      refine ⟨rfl, buildComponents_scalar p, ?_⟩
      exact doItBuild_buffer_scalar D _ p

/-- Witness for C10 at the one-component scalar scenario. -/
theorem single_component_behavior_witness :
    mainProc (fun _ _ => WriteResult.ok) exampleScalarParams
      = mainProc (fun _ _ => WriteResult.ok)
          { exampleScalarParams with NumberOfComponents := 1 } ∧
    ∀ D img path, doItD D exampleScalarParams = RunOutcome.success img path →
      img.isVectorImage = false ∧
      img.componentsPerPixel = 1 ∧
      img.buffer = List.replicate img.regionSize.prod
        (castScalar (getComponentTypeFromString exampleScalarParams.ScalarType)
          (exampleScalarParams.FillValue.getD 0 0)) :=
  single_component_behavior (fun _ _ => WriteResult.ok) exampleScalarParams
    (by decide) (by decide)

end ImageMaker
